import Mathlib

/-!
Shallow embedding of `parse_segment_prompt` from `src/app.py` of the
Techtonic-Minds airline dashboard, together with theorems settling the
specification claims about it.

A pandas customer dataframe is modelled as a `Frame`: an ordered list of
column names (the schema) plus an ordered list of customer rows.  Row
values of the derived `age` column are not stored per row (they are
`2026 - birth_year`, recomputable via `pyAge`); the schema list records
whether the column has been added.  Flight counts and monetary amounts
are exact fractions (`Q`), so the pandas 75th-percentile linear
interpolation is modelled exactly; `Q` is unnormalised so that every
operation is plain integer arithmetic.  A Python exception escaping
`parse_segment_prompt` is modelled as the result `none`.
-/

/-- An exact fraction `num / den`; every value built by the embedding has a
positive denominator, and the comparison below is stated for that case. -/
structure Q where
  num : Int
  den : Int
deriving DecidableEq

instance (n : Nat) : OfNat Q n := ⟨⟨(n : Int), 1⟩⟩

def Q.add (a b : Q) : Q := ⟨a.num * b.den + b.num * a.den, a.den * b.den⟩

def Q.sub (a b : Q) : Q := ⟨a.num * b.den - b.num * a.den, a.den * b.den⟩

def Q.mul (a b : Q) : Q := ⟨a.num * b.num, a.den * b.den⟩

/-- `a ≤ b` by cross-multiplication (valid for positive denominators). -/
def Q.le (a b : Q) : Bool := decide (a.num * b.den ≤ b.num * a.den)

/-- Python's `int()` on a (positive-denominator) fraction: truncation
toward zero. -/
def truncInt (q : Q) : Int :=
  if 0 ≤ q.num then ((q.num.toNat / q.den.toNat : Nat) : Int)
  else -((((-q.num).toNat / q.den.toNat : Nat) : Int))

def sumQ (l : List Q) : Q := l.foldr Q.add ⟨0, 1⟩

/-- Insert into an ascending sorted list of fractions. -/
def insertQ (x : Q) : List Q → List Q
  | [] => [x]
  | y :: ys => if Q.le x y then x :: y :: ys else y :: insertQ x ys

/-- Insertion sort, ascending — the sort underlying pandas `quantile`. -/
def sortQ : List Q → List Q
  | [] => []
  | x :: xs => insertQ x (sortQ xs)

/-- pandas `Series.quantile(0.75)` with the default linear interpolation:
position `0.75*(n-1)` in the ascending sort, interpolating between the
neighbouring order statistics.  On an empty series pandas yields NaN,
modelled as `none`. -/
def quantile75 (xs : List Q) : Option Q :=
  match xs with
  | [] => none
  | _ :: _ =>
    let n := xs.length
    let s := sortQ xs
    let lo : Nat := 3 * (n - 1) / 4
    let fracNum : Nat := 3 * (n - 1) - 4 * lo
    let base := s.getD lo ⟨0, 1⟩
    let nxt := s.getD (lo + 1) base
    some (Q.add base (Q.mul ⟨(fracNum : Int), 4⟩ (Q.sub nxt base)))

/-- Python's `str.lower()` (ASCII, as all keywords and data here are). -/
def strLower (s : String) : String := String.mk (s.toList.map Char.toLower)

/-- `charsAt pat text`: does `text` start with `pat`? -/
def charsAt : List Char → List Char → Bool
  | [], _ => true
  | _ :: _, [] => false
  | p :: ps, t :: ts => p == t && charsAt ps ts

/-- `charsContains pat text`: does `pat` occur contiguously inside `text`? -/
def charsContains (pat : List Char) : List Char → Bool
  | [] => charsAt pat []
  | t :: ts => charsAt pat (t :: ts) || charsContains pat ts

/-- Python's `pat in text` substring test. -/
def strContains (text pat : String) : Bool :=
  charsContains pat.toList text.toList

/-- Python's `str.capitalize()`: first character upper-cased, rest lower-cased. -/
def pyCapitalize (s : String) : String :=
  match s.toList with
  | [] => ""
  | c :: cs => String.mk (c.toUpper :: cs.map Char.toLower)

/-- pandas `Series.unique()`: distinct values in first-occurrence order. -/
def uniqFirstAux (seen : List String) : List String → List String
  | [] => []
  | x :: xs =>
    if seen.contains x then uniqFirstAux seen xs
    else x :: uniqFirstAux (x :: seen) xs

def uniqueKeepFirst (l : List String) : List String :=
  uniqFirstAux [] l

/-- A customer row of `dim_customer`, with the fields `parse_segment_prompt`
reads.  `birth_year` stands for the year of `date_of_birth`. -/
structure Customer where
  customer_id : Nat
  loyalty_tier : String
  country : String
  total_flights : Q
  is_active : Bool
  preferred_class : String
  birth_year : Int
deriving DecidableEq

/-- A booking row of `fact_booking`, with the fields the spend matcher reads. -/
structure Txn where
  customer_id : Nat
  booking_status : String
  total_amount : Q
deriving DecidableEq

/-- A pandas dataframe: schema (ordered column names) plus ordered rows. -/
structure Frame where
  cols : List String
  rows : List Customer
deriving DecidableEq

/-- `app.py` line 67: the fixed tier priority list. -/
def tierList : List String := ["diamond", "platinum", "gold", "silver", "none"]

/-- `app.py` line 109: the fixed cabin-class priority list. -/
def cabinList : List String := ["economy", "business", "first", "premium"]

/-- A matcher that, when `cond` holds, narrows the rows by `p` (same schema)
and reports `msg`; otherwise passes the frame through. -/
def filterStage (cond : Bool) (p : Customer → Bool) (msg : String) (f : Frame) :
    Frame × Option String :=
  if cond then (⟨f.cols, f.rows.filter p⟩, some msg) else (f, none)

/-- `app.py` lines 67–74: first tier keyword found in the lowered prompt wins
(`for`/`break`), filtering on case-insensitive equality of `loyalty_tier`. -/
def tierStage (pl : String) (f : Frame) : Frame × Option String :=
  match tierList.find? (fun t => strContains pl t) with
  | some t =>
      (⟨f.cols, f.rows.filter (fun r => strLower r.loyalty_tier == t)⟩,
       some ("Loyalty tier: " ++ pyCapitalize t))
  | none => (f, none)

/-- `app.py` line 77: the country matcher's trigger test — plain substring
containment of "from", "in" or "country" in the lowered prompt. -/
def countryTrigger (pl : String) : Bool :=
  strContains pl "from" || strContains pl "in" || strContains pl "country"

/-- `app.py` lines 79–86: scan the distinct countries of the current
population in first-occurrence order; the first whose lowered name occurs in
the lowered prompt wins (`for`/`break`). -/
def countryScan (pl : String) (f : Frame) : Frame × Option String :=
  match (uniqueKeepFirst (f.rows.map (·.country))).find?
      (fun c => strContains pl (strLower c)) with
  | some c =>
      (⟨f.cols, f.rows.filter (fun r => strLower r.country == strLower c)⟩,
       some ("Country: " ++ c))
  | none => (f, none)

/-- `app.py` lines 77–86: the country matcher. -/
def countryStage (pl : String) (f : Frame) : Frame × Option String :=
  if countryTrigger pl then countryScan pl f else (f, none)

/-- `app.py` lines 89–94: the frequency matcher.  The 75th percentile of
`total_flights` is taken over the *current* population.  On an empty
population the threshold is NaN and `int(threshold)` in the condition
string raises `ValueError`, modelled as `none`. -/
def freqStage (pl : String) (f : Frame) : Option (Frame × Option String) :=
  if strContains pl "frequent" || strContains pl "high" || strContains pl "many" then
    match quantile75 (f.rows.map (·.total_flights)) with
    | none => none
    | some t =>
        some (⟨f.cols, f.rows.filter (fun r => Q.le t r.total_flights)⟩,
              some ("Frequent flyers (≥" ++ toString (truncInt t) ++ " flights)"))
  else some (f, none)

/-- `app.py` lines 96–100: the inactive branch (an independent `if`). -/
def inactiveStage (pl : String) (f : Frame) : Frame × Option String :=
  filterStage (strContains pl "inactive" || strContains pl "churned")
    (fun r => r.is_active == false) "Status: Inactive" f

/-- `app.py` lines 102–106: the active branch (an independent `if`). -/
def activeStage (pl : String) (f : Frame) : Frame × Option String :=
  filterStage (strContains pl "active" && !strContains pl "inactive")
    (fun r => r.is_active == true) "Status: Active" f

/-- `app.py` lines 109–116: first cabin keyword found wins (`for`/`break`),
filtering on substring containment in the lowered `preferred_class`. -/
def cabinStage (pl : String) (f : Frame) : Frame × Option String :=
  match cabinList.find? (fun c => strContains pl c) with
  | some c =>
      (⟨f.cols, f.rows.filter (fun r => strContains (strLower r.preferred_class) c)⟩,
       some ("Preferred class: " ++ pyCapitalize c))
  | none => (f, none)

/-- `app.py` lines 120–122 and 129–131: `age = 2026 - year(date_of_birth)`. -/
def pyAge (r : Customer) : Int := 2026 - r.birth_year

/-- The column assignment `filtered_customers['age'] = ...`: adds the column
to the schema when absent, overwrites it when present. -/
def addAgeCol (cols : List String) : List String :=
  if cols.contains "age" then cols else cols ++ ["age"]

/-- A matcher that, when `cond` holds, materialises the `age` column and
narrows the rows by `p`. -/
def ageFilterStage (cond : Bool) (p : Customer → Bool) (msg : String) (f : Frame) :
    Frame × Option String :=
  if cond then (⟨addAgeCol f.cols, f.rows.filter p⟩, some msg) else (f, none)

/-- `app.py` lines 119–126: the young/millennial branch (an independent `if`). -/
def youngStage (pl : String) (f : Frame) : Frame × Option String :=
  ageFilterStage (strContains pl "young" || strContains pl "millennial")
    (fun r => decide (25 ≤ pyAge r) && decide (pyAge r ≤ 40)) "Age: 25-40" f

/-- `app.py` lines 128–133: the senior branch (an independent `if`). -/
def seniorStage (pl : String) (f : Frame) : Frame × Option String :=
  ageFilterStage (strContains pl "senior")
    (fun r => decide (65 ≤ pyAge r)) "Age: 65+" f

/-- `app.py` lines 137–139: `Completed` bookings only. -/
def completedTxns (txns : List Txn) : List Txn :=
  txns.filter (fun t => t.booking_status == "Completed")

/-- The distinct customer ids of the completed bookings (the groupby keys). -/
def spendIds (txns : List Txn) : List Nat :=
  ((completedTxns txns).map (·.customer_id)).foldr
    (fun i acc => if acc.contains i then acc else i :: acc) []

/-- `groupby('customer_id')['total_amount'].sum()` at one id. -/
def spendOf (txns : List Txn) (i : Nat) : Q :=
  sumQ (((completedTxns txns).filter (fun t => t.customer_id == i)).map
    (·.total_amount))

/-- `app.py` lines 141–143: ids whose completed spend is at or above the
75th percentile of the per-customer sums over the *full* booking table.
On an empty series the pandas threshold is NaN and `>= NaN` keeps nothing. -/
def highSpenders (txns : List Txn) : List Nat :=
  match quantile75 ((spendIds txns).map (spendOf txns)) with
  | none => []
  | some t => (spendIds txns).filter (fun i => Q.le t (spendOf txns i))

/-- `app.py` lines 136–148: the spend matcher — skipped when the booking
table is absent or "spend" does not occur; otherwise intersects the current
rows with the high spenders of the full booking table. -/
def spendStage (pl : String) (bookings : Option (List Txn)) (f : Frame) :
    Frame × Option String :=
  match bookings with
  | none => (f, none)
  | some txns =>
      filterStage (strContains pl "spend")
        (fun r => (highSpenders txns).contains r.customer_id)
        "High spenders (top 25%)" f

/-- `app.py` line 151: the sentinel condition. -/
def sentinelCondition : String := "All customers (no filters applied)"

/-- Thread one matcher through the (frame, conditions) accumulator. -/
def step (s : Frame × List String) (st : Frame → Frame × Option String) :
    Frame × List String :=
  ((st s.1).1, s.2 ++ (st s.1).2.toList)

/-- `app.py` lines 61–133: everything before the spend matcher, in source
order.  `none` models the `ValueError` of the frequency matcher. -/
def preSpend (prompt : String) (customers : Frame) :
    Option (Frame × List String) :=
  let pl := strLower prompt
  let s1 := step (customers, []) (tierStage pl)
  let s2 := step s1 (countryStage pl)
  match freqStage pl s2.1 with
  | none => none
  | some fr =>
    let s3 : Frame × List String := (fr.1, s2.2 ++ fr.2.toList)
    let s4 := step s3 (inactiveStage pl)
    let s5 := step s4 (activeStage pl)
    let s6 := step s5 (cabinStage pl)
    let s7 := step s6 (youngStage pl)
    let s8 := step s7 (seniorStage pl)
    some s8

/-- `app.py` lines 59–153: `parse_segment_prompt(prompt, customers_df,
bookings_df)`.  Returns the filtered frame and the condition list, or `none`
when the source raises. -/
def parse_segment_prompt (prompt : String) (customers : Frame)
    (bookings : Option (List Txn)) : Option (Frame × List String) :=
  match preSpend prompt customers with
  | none => none
  | some s =>
    let t := spendStage (strLower prompt) bookings s.1
    let conds := s.2 ++ t.2.toList
    some (t.1, if conds.isEmpty then [sentinelCondition] else conds)

/-- Schema of `dim_customer` as read by the matchers. -/
def baseCols : List String :=
  ["customer_id", "loyalty_tier", "country", "total_flights",
   "is_active", "preferred_class", "date_of_birth"]

/-! ### Firing conditions of the individual matchers, read off the source. -/

def tierFires (pl : String) : Bool := tierList.any (fun t => strContains pl t)

def countryFires (pl : String) (f : Frame) : Bool :=
  countryTrigger pl &&
    (uniqueKeepFirst (f.rows.map (·.country))).any
      (fun c => strContains pl (strLower c))

def freqFires (pl : String) : Bool :=
  strContains pl "frequent" || strContains pl "high" || strContains pl "many"

def inactiveFires (pl : String) : Bool :=
  strContains pl "inactive" || strContains pl "churned"

def activeFires (pl : String) : Bool :=
  strContains pl "active" && !strContains pl "inactive"

def cabinFires (pl : String) : Bool := cabinList.any (fun c => strContains pl c)

def youngFires (pl : String) : Bool :=
  strContains pl "young" || strContains pl "millennial"

def seniorFires (pl : String) : Bool := strContains pl "senior"

def spendFires (pl : String) (b : Option (List Txn)) : Bool :=
  b.isSome && strContains pl "spend"

/-- Python's `str.split()` restricted to spaces: the standalone words of a
request (used only to state claims about word-level versus substring
matching; the source never splits into words for matching). -/
def wordsAux (acc : List Char) : List Char → List String
  | [] => if acc.isEmpty then [] else [String.mk acc.reverse]
  | c :: cs =>
    if c == ' ' then
      (if acc.isEmpty then wordsAux [] cs
       else String.mk acc.reverse :: wordsAux [] cs)
    else wordsAux (c :: acc) cs

def wordsOf (s : String) : List String := wordsAux [] s.toList

/-- The four customers of the spec's end-to-end example (preferred class and
birth year are not exercised by that request). -/
def exCust1 : Customer := ⟨1, "Gold", "USA", 50, true, "Economy", 1980⟩

def exCust2 : Customer := ⟨2, "Gold", "USA", 5, false, "Economy", 1985⟩

def exCust3 : Customer := ⟨3, "Platinum", "UK", 80, true, "Business", 1970⟩

def exCust4 : Customer := ⟨4, "Gold", "USA", 60, true, "Economy", 1990⟩

def exPop : Frame := ⟨baseCols, [exCust1, exCust2, exCust3, exCust4]⟩

/-- A lone Silver customer: the tier filter of a "gold …" request empties
the population before the frequency matcher runs. -/
def silverCust : Customer := ⟨1, "Silver", "USA", 3, true, "Economy", 1980⟩

def silverPop : Frame := ⟨baseCols, [silverCust]⟩

/-- Spend-scope scenario: customer 1 is the top spender of the booking table
but is Silver, so a "gold … spend …" request excludes them before the spend
matcher runs. -/
def goldCust : Customer := ⟨2, "Gold", "USA", 9, true, "Economy", 1985⟩

def spendPop : Frame := ⟨baseCols, [silverCust, goldCust]⟩

def spendTxns : List Txn :=
  [⟨1, "Completed", 1000⟩, ⟨2, "Completed", 10⟩, ⟨3, "Completed", 5⟩,
   ⟨4, "Cancelled", 99999⟩, ⟨4, "Completed", 1⟩]

/-! ### Structural lemmas about one matcher pass. -/

theorem rows_filterStage (c : Bool) (p : Customer → Bool) (m : String) (f : Frame) :
    List.Sublist (filterStage c p m f).1.rows f.rows := by
  unfold filterStage
  split
  · exact List.filter_sublist _
  · exact List.Sublist.refl _

theorem cols_filterStage (c : Bool) (p : Customer → Bool) (m : String) (f : Frame) :
    (filterStage c p m f).1.cols = f.cols := by
  unfold filterStage
  split <;> rfl

theorem cond_filterStage (c : Bool) (p : Customer → Bool) (m : String) (f : Frame) :
    (filterStage c p m f).2.isSome = c := by
  cases c <;> rfl

theorem rows_tierStage (pl : String) (f : Frame) :
    List.Sublist (tierStage pl f).1.rows f.rows := by
  unfold tierStage
  split
  · exact List.filter_sublist _
  · exact List.Sublist.refl _

theorem cols_tierStage (pl : String) (f : Frame) :
    (tierStage pl f).1.cols = f.cols := by
  unfold tierStage
  split <;> rfl

theorem rows_countryScan (pl : String) (f : Frame) :
    List.Sublist (countryScan pl f).1.rows f.rows := by
  unfold countryScan
  split
  · exact List.filter_sublist _
  · exact List.Sublist.refl _

theorem cols_countryScan (pl : String) (f : Frame) :
    (countryScan pl f).1.cols = f.cols := by
  unfold countryScan
  split <;> rfl

theorem rows_countryStage (pl : String) (f : Frame) :
    List.Sublist (countryStage pl f).1.rows f.rows := by
  unfold countryStage
  split
  · exact rows_countryScan pl f
  · exact List.Sublist.refl _

theorem cols_countryStage (pl : String) (f : Frame) :
    (countryStage pl f).1.cols = f.cols := by
  unfold countryStage
  split
  · exact cols_countryScan pl f
  · rfl

theorem freqStage_some (pl : String) (f : Frame) (fr : Frame × Option String)
    (h : freqStage pl f = some fr) : List.Sublist fr.1.rows f.rows ∧ fr.1.cols = f.cols := by
  unfold freqStage at h
  split at h
  · split at h
    · exact absurd h (by simp)
    · rw [Option.some_inj] at h
      subst h
      exact ⟨List.filter_sublist _, rfl⟩
  · rw [Option.some_inj] at h
    subst h
    exact ⟨List.Sublist.refl _, rfl⟩

theorem rows_cabinStage (pl : String) (f : Frame) :
    List.Sublist (cabinStage pl f).1.rows f.rows := by
  unfold cabinStage
  split
  · exact List.filter_sublist _
  · exact List.Sublist.refl _

theorem cols_cabinStage (pl : String) (f : Frame) :
    (cabinStage pl f).1.cols = f.cols := by
  unfold cabinStage
  split <;> rfl

theorem rows_ageFilterStage (c : Bool) (p : Customer → Bool) (m : String) (f : Frame) :
    List.Sublist (ageFilterStage c p m f).1.rows f.rows := by
  unfold ageFilterStage
  split
  · exact List.filter_sublist _
  · exact List.Sublist.refl _

theorem cols_youngStage (pl : String) (f : Frame) :
    (youngStage pl f).1.cols =
      (if youngFires pl then addAgeCol f.cols else f.cols) := by
  unfold youngStage ageFilterStage youngFires
  split <;> simp_all

theorem cols_seniorStage (pl : String) (f : Frame) :
    (seniorStage pl f).1.cols =
      (if seniorFires pl then addAgeCol f.cols else f.cols) := by
  unfold seniorStage ageFilterStage seniorFires
  split <;> simp_all

theorem rows_spendStage (pl : String) (b : Option (List Txn)) (f : Frame) :
    List.Sublist (spendStage pl b f).1.rows f.rows := by
  unfold spendStage
  split
  · exact List.Sublist.refl _
  · exact rows_filterStage _ _ _ _

theorem cols_spendStage (pl : String) (b : Option (List Txn)) (f : Frame) :
    (spendStage pl b f).1.cols = f.cols := by
  unfold spendStage
  split
  · rfl
  · exact cols_filterStage _ _ _ _

theorem contains_append_age (c : List String) : (c ++ ["age"]).contains "age" = true := by
  induction c with
  | nil => rfl
  | cons x xs ih => simp [List.contains_cons, ih]

theorem addAgeCol_contains (c : List String) : (addAgeCol c).contains "age" = true := by
  unfold addAgeCol
  split
  · assumption
  · exact contains_append_age c

theorem addAgeCol_idem (c : List String) : addAgeCol (addAgeCol c) = addAgeCol c := by
  have h := addAgeCol_contains c
  show (if (addAgeCol c).contains "age" = true then addAgeCol c
      else addAgeCol c ++ ["age"]) = addAgeCol c
  rw [if_pos h]

theorem rows_inactiveStage (pl : String) (f : Frame) :
    List.Sublist (inactiveStage pl f).1.rows f.rows :=
  rows_filterStage _ _ _ _

theorem cols_inactiveStage (pl : String) (f : Frame) :
    (inactiveStage pl f).1.cols = f.cols :=
  cols_filterStage _ _ _ _

theorem rows_activeStage (pl : String) (f : Frame) :
    List.Sublist (activeStage pl f).1.rows f.rows :=
  rows_filterStage _ _ _ _

theorem cols_activeStage (pl : String) (f : Frame) :
    (activeStage pl f).1.cols = f.cols :=
  cols_filterStage _ _ _ _

theorem rows_youngStage (pl : String) (f : Frame) :
    List.Sublist (youngStage pl f).1.rows f.rows :=
  rows_ageFilterStage _ _ _ _

theorem rows_seniorStage (pl : String) (f : Frame) :
    List.Sublist (seniorStage pl f).1.rows f.rows :=
  rows_ageFilterStage _ _ _ _

theorem find?_none_of_any_false {α : Type} (p : α → Bool) (l : List α)
    (h : l.any p = false) : l.find? p = none := by
  rw [List.find?_eq_none]
  intro x hx hpx
  have hl : l.any p = true := List.any_eq_true.mpr ⟨x, hx, hpx⟩
  rw [h] at hl
  exact Bool.noConfusion hl

/-! ### Pass-through: a matcher whose firing condition is false leaves the
frame unchanged and reports nothing. -/

theorem tierStage_pass (pl : String) (f : Frame) (h : tierFires pl = false) :
    tierStage pl f = (f, none) := by
  unfold tierFires at h
  unfold tierStage
  rw [find?_none_of_any_false _ _ h]

theorem countryStage_pass (pl : String) (f : Frame) (h : countryFires pl f = false) :
    countryStage pl f = (f, none) := by
  unfold countryFires at h
  unfold countryStage
  cases ht : countryTrigger pl with
  | false => simp [ht]
  | true =>
    rw [ht, Bool.true_and] at h
    rw [if_pos rfl]
    unfold countryScan
    rw [find?_none_of_any_false _ _ h]

theorem freqStage_pass (pl : String) (f : Frame) (h : freqFires pl = false) :
    freqStage pl f = some (f, none) := by
  unfold freqFires at h
  unfold freqStage
  rw [h]
  rfl

theorem inactiveStage_pass (pl : String) (f : Frame) (h : inactiveFires pl = false) :
    inactiveStage pl f = (f, none) := by
  unfold inactiveFires at h
  unfold inactiveStage
  rw [h]
  rfl

theorem activeStage_pass (pl : String) (f : Frame) (h : activeFires pl = false) :
    activeStage pl f = (f, none) := by
  unfold activeFires at h
  unfold activeStage
  rw [h]
  rfl

theorem cabinStage_pass (pl : String) (f : Frame) (h : cabinFires pl = false) :
    cabinStage pl f = (f, none) := by
  unfold cabinFires at h
  unfold cabinStage
  rw [find?_none_of_any_false _ _ h]

theorem youngStage_pass (pl : String) (f : Frame) (h : youngFires pl = false) :
    youngStage pl f = (f, none) := by
  unfold youngFires at h
  unfold youngStage
  rw [h]
  rfl

theorem seniorStage_pass (pl : String) (f : Frame) (h : seniorFires pl = false) :
    seniorStage pl f = (f, none) := by
  unfold seniorFires at h
  unfold seniorStage
  rw [h]
  rfl

theorem spendStage_pass (pl : String) (b : Option (List Txn)) (f : Frame)
    (h : spendFires pl b = false) : spendStage pl b f = (f, none) := by
  unfold spendFires at h
  cases b with
  | none => rfl
  | some txns =>
    rw [Option.isSome_some, Bool.true_and] at h
    unfold spendStage
    rw [h]
    rfl

theorem preSpend_shape (p : String) (f : Frame) (s : Frame × List String)
    (h : preSpend p f = some s) :
    List.Sublist s.1.rows f.rows ∧
      s.1.cols = (if youngFires (strLower p) || seniorFires (strLower p)
        then addAgeCol f.cols else f.cols) := by
  unfold preSpend at h
  simp only [step] at h
  split at h
  · exact Option.noConfusion h
  · rename_i fr heq
    rw [Option.some_inj] at h
    subst h
    obtain ⟨hfrow, hfcol⟩ := freqStage_some _ _ _ heq
    have hrows2 :
        List.Sublist (countryStage (strLower p) (tierStage (strLower p) f).1).1.rows
          f.rows :=
      List.Sublist.trans (rows_countryStage _ _) (rows_tierStage _ _)
    constructor
    · refine List.Sublist.trans (rows_seniorStage _ _) ?_
      refine List.Sublist.trans (rows_youngStage _ _) ?_
      refine List.Sublist.trans (rows_cabinStage _ _) ?_
      refine List.Sublist.trans (rows_activeStage _ _) ?_
      refine List.Sublist.trans (rows_inactiveStage _ _) ?_
      exact List.Sublist.trans hfrow hrows2
    · have hc :
          (cabinStage (strLower p)
            (activeStage (strLower p)
              (inactiveStage (strLower p) fr.1).1).1).1.cols = f.cols := by
        rw [cols_cabinStage, cols_activeStage, cols_inactiveStage, hfcol,
          cols_countryStage, cols_tierStage]
      rw [cols_seniorStage, cols_youngStage, hc]
      cases hy : youngFires (strLower p) with
      | false =>
        cases hs : seniorFires (strLower p) with
        | false => simp
        | true => simp
      | true =>
        cases hs : seniorFires (strLower p) with
        | false => simp
        | true => simp [addAgeCol_idem]

theorem parse_shape (p : String) (f : Frame) (b : Option (List Txn))
    (res : Frame × List String) (h : parse_segment_prompt p f b = some res) :
    List.Sublist res.1.rows f.rows ∧
      res.1.cols = (if youngFires (strLower p) || seniorFires (strLower p)
        then addAgeCol f.cols else f.cols) := by
  unfold parse_segment_prompt at h
  split at h
  · exact Option.noConfusion h
  · rename_i s heq
    simp only at h
    rw [Option.some_inj] at h
    obtain ⟨hr, hc⟩ := preSpend_shape p f s heq
    subst h
    constructor
    · exact List.Sublist.trans (rows_spendStage _ _ _) hr
    · rw [cols_spendStage]
      exact hc

theorem preSpend_pass (p : String) (f : Frame)
    (h1 : tierFires (strLower p) = false)
    (h2 : countryFires (strLower p) f = false)
    (h3 : freqFires (strLower p) = false)
    (h4 : inactiveFires (strLower p) = false)
    (h5 : activeFires (strLower p) = false)
    (h6 : cabinFires (strLower p) = false)
    (h7 : youngFires (strLower p) = false)
    (h8 : seniorFires (strLower p) = false) :
    preSpend p f = some (f, []) := by
  unfold preSpend
  simp only [step, tierStage_pass _ _ h1, countryStage_pass _ _ h2,
    freqStage_pass _ _ h3, inactiveStage_pass _ _ h4, activeStage_pass _ _ h5,
    cabinStage_pass _ _ h6, youngStage_pass _ _ h7, seniorStage_pass _ _ h8,
    Option.toList_none, List.append_nil, List.nil_append]

theorem spendStage_fired (pl : String) (txns : List Txn) (f : Frame)
    (h : strContains pl "spend" = true) :
    spendStage pl (some txns) f =
      (⟨f.cols, f.rows.filter (fun r => (highSpenders txns).contains r.customer_id)⟩,
       some "High spenders (top 25%)") := by
  unfold spendStage filterStage
  simp [h]

theorem append_singleton_not_empty (l : List String) (a : String) :
    (l ++ [a]).isEmpty = false := by
  cases l <;> rfl

/-! ### Claim theorems -/

/-- C1: for every request text, customer population and optional booking
table, the rows `parse_segment_prompt` returns are a sublist of the input
population's rows — each surviving row is, with all its input fields
unmodified, a row of the input, so the customer set is a subset of the
input population; matchers only remove rows. -/
theorem parse_output_subset (p : String) (f : Frame) (b : Option (List Txn))
    (res : Frame × List String) (h : parse_segment_prompt p f b = some res) :
    List.Sublist res.1.rows f.rows ∧ ∀ r ∈ res.1.rows, r ∈ f.rows := by
  obtain ⟨hs, _⟩ := parse_shape p f b res h
  exact ⟨hs, fun r hr => hs.subset hr⟩

theorem parse_output_subset_witness :
    parse_segment_prompt "gold" exPop none =
        some (⟨baseCols, [exCust1, exCust2, exCust4]⟩, ["Loyalty tier: Gold"]) ∧
      (List.Sublist (⟨baseCols, [exCust1, exCust2, exCust4]⟩ : Frame).rows exPop.rows ∧
        ∀ r ∈ (⟨baseCols, [exCust1, exCust2, exCust4]⟩ : Frame).rows, r ∈ exPop.rows) :=
  ⟨by decide,
   parse_output_subset "gold" exPop none
     (⟨baseCols, [exCust1, exCust2, exCust4]⟩, ["Loyalty tier: Gold"]) (by decide)⟩

/-- C2: on the spec's four-customer population, the request "Show me gold
customers from USA who fly frequently" returns exactly customer 4 with the
condition list ["Loyalty tier: Gold", "Country: USA",
"Frequent flyers (≥55 flights)"], for every optional booking table; the
threshold 55 is the 75th percentile of the flights {50, 5, 60} remaining
after the tier and country filters. -/
theorem end_to_end_gold_usa_frequent (b : Option (List Txn)) :
    parse_segment_prompt "Show me gold customers from USA who fly frequently"
        exPop b =
      some (⟨baseCols, [exCust4]⟩,
        ["Loyalty tier: Gold", "Country: USA", "Frequent flyers (≥55 flights)"]) := by
  cases b <;> rfl

/-- C3 counterexample: the request "churned active" (containing "churned"
and "active" but not "inactive") applies BOTH activity filters and appends
BOTH condition strings — the two outcomes are not mutually exclusive, so
the claim fails at this input. -/
theorem activity_not_exclusive_cex :
    parse_segment_prompt "churned active" exPop none =
      some (⟨baseCols, []⟩, ["Status: Inactive", "Status: Active"]) := by
  decide

/-- C3 amended: the two activity branches are separate `if` statements;
both fire exactly when the request contains "churned" and "active" but not
"inactive" (a request containing "inactive" fires only the inactive
branch, since "active" occurs inside "inactive" and the active branch
excludes on "inactive"). -/
theorem activity_both_fire_iff (pl : String) (f g : Frame) :
    ((inactiveStage pl f).2.isSome && (activeStage pl g).2.isSome) =
      (strContains pl "churned" && strContains pl "active" &&
        !strContains pl "inactive") := by
  unfold inactiveStage activeStage
  rw [cond_filterStage, cond_filterStage]
  cases hi : strContains pl "inactive" <;>
    cases hc : strContains pl "churned" <;>
      cases ha : strContains pl "active" <;> simp

/-- C4 counterexample: the request "young senior" fires BOTH age branches —
the senior restriction is applied even though "young" occurs, and both
condition strings are appended — so the claimed if/elif short-circuit does
not hold at this input. -/
theorem age_not_exclusive_cex :
    parse_segment_prompt "young senior" exPop none =
      some (⟨baseCols ++ ["age"], []⟩, ["Age: 25-40", "Age: 65+"]) := by
  decide

/-- C4 amended: the two age branches are independent `if` statements: for
every request in which both keyword sets occur, the young/millennial branch
AND the senior branch each fire, regardless of the other. -/
theorem age_branches_both_fire (pl : String) (f g : Frame)
    (hy : youngFires pl = true) (hs : seniorFires pl = true) :
    (youngStage pl f).2 = some "Age: 25-40" ∧
      (seniorStage pl g).2 = some "Age: 65+" := by
  unfold youngFires at hy
  unfold seniorFires at hs
  constructor
  · unfold youngStage ageFilterStage
    rw [hy]
    rfl
  · unfold seniorStage ageFilterStage
    rw [hs]
    rfl

theorem age_branches_both_fire_witness :
    youngFires "young senior" = true ∧ seniorFires "young senior" = true ∧
      ((youngStage "young senior" exPop).2 = some "Age: 25-40" ∧
        (seniorStage "young senior" exPop).2 = some "Age: 65+") :=
  ⟨by decide, by decide,
   age_branches_both_fire "young senior" exPop exPop (by decide) (by decide)⟩

/-- C5: whenever a booking table is supplied and "spend" occurs in the
lowered request, the final result intersects the already-narrowed
population with `highSpenders txns` — a function of the full booking table
only (per-customer sums of "Completed" amounts, thresholded at their 75th
percentile), independent of the customer-side narrowing — and a customer
already excluded by an earlier filter stays excluded. -/
theorem spend_threshold_scope (p : String) (f : Frame) (txns : List Txn)
    (s : Frame × List String) (hs : preSpend p f = some s)
    (hk : strContains (strLower p) "spend" = true) :
    parse_segment_prompt p f (some txns) =
      some (⟨s.1.cols,
          s.1.rows.filter (fun r => (highSpenders txns).contains r.customer_id)⟩,
        s.2 ++ ["High spenders (top 25%)"]) ∧
    ∀ r : Customer, r ∉ s.1.rows →
      r ∉ s.1.rows.filter (fun r => (highSpenders txns).contains r.customer_id) := by
  constructor
  · unfold parse_segment_prompt
    rw [hs]
    simp [spendStage_fired _ _ _ hk, append_singleton_not_empty]
  · intro r hr hmem
    exact hr (List.mem_of_mem_filter hmem)

theorem spend_threshold_scope_witness :
    preSpend "gold big spenders" spendPop =
        some (⟨baseCols, [goldCust]⟩, ["Loyalty tier: Gold"]) ∧
      strContains (strLower "gold big spenders") "spend" = true ∧
      (parse_segment_prompt "gold big spenders" spendPop (some spendTxns) =
          some (⟨baseCols,
              [goldCust].filter
                (fun r => (highSpenders spendTxns).contains r.customer_id)⟩,
            ["Loyalty tier: Gold"] ++ ["High spenders (top 25%)"]) ∧
        ∀ r : Customer, r ∉ [goldCust] →
          r ∉ [goldCust].filter
            (fun r => (highSpenders spendTxns).contains r.customer_id)) :=
  ⟨by decide, by decide,
   spend_threshold_scope "gold big spenders" spendPop spendTxns
     (⟨baseCols, [goldCust]⟩, ["Loyalty tier: Gold"]) (by decide) (by decide)⟩

/-- C6: the tier matcher scans the fixed priority list
["diamond", "platinum", "gold", "silver", "none"]; for every request in
which "platinum" occurs and "diamond" does not — regardless of whether
"gold" or the other later tier words also occur — exactly the Platinum
restriction is applied and exactly the one condition
"Loyalty tier: Platinum" is produced. -/
theorem tier_first_keyword (pl : String) (f : Frame)
    (hp : strContains pl "platinum" = true)
    (hd : strContains pl "diamond" = false) :
    tierStage pl f =
      (⟨f.cols, f.rows.filter (fun r => strLower r.loyalty_tier == "platinum")⟩,
       some "Loyalty tier: Platinum") := by
  have hcap : "Loyalty tier: " ++ pyCapitalize "platinum" = "Loyalty tier: Platinum" := by
    decide
  unfold tierStage tierList
  simp only [List.find?, hd, hp, hcap]

theorem tier_first_keyword_witness :
    strContains "gold and platinum" "platinum" = true ∧
      strContains "gold and platinum" "diamond" = false ∧
      tierStage "gold and platinum" exPop =
        (⟨exPop.cols,
            exPop.rows.filter (fun r => strLower r.loyalty_tier == "platinum")⟩,
         some "Loyalty tier: Platinum") :=
  ⟨by decide, by decide,
   tier_first_keyword "gold and platinum" exPop (by decide) (by decide)⟩

/-- C7: when no matcher fires (no recognized keyword matches — each
matcher's firing condition, read off the source, is false), the result is
the full unchanged input population with exactly the one-element sentinel
condition list. -/
theorem sentinel_when_no_matcher_fires (p : String) (f : Frame)
    (b : Option (List Txn))
    (h1 : tierFires (strLower p) = false)
    (h2 : countryFires (strLower p) f = false)
    (h3 : freqFires (strLower p) = false)
    (h4 : inactiveFires (strLower p) = false)
    (h5 : activeFires (strLower p) = false)
    (h6 : cabinFires (strLower p) = false)
    (h7 : youngFires (strLower p) = false)
    (h8 : seniorFires (strLower p) = false)
    (h9 : spendFires (strLower p) b = false) :
    parse_segment_prompt p f b = some (f, [sentinelCondition]) := by
  unfold parse_segment_prompt
  rw [preSpend_pass p f h1 h2 h3 h4 h5 h6 h7 h8]
  simp [spendStage_pass _ _ _ h9]

theorem sentinel_when_no_matcher_fires_witness :
    (tierFires (strLower "hello world") = false ∧
     countryFires (strLower "hello world") exPop = false ∧
     freqFires (strLower "hello world") = false ∧
     inactiveFires (strLower "hello world") = false ∧
     activeFires (strLower "hello world") = false ∧
     cabinFires (strLower "hello world") = false ∧
     youngFires (strLower "hello world") = false ∧
     seniorFires (strLower "hello world") = false ∧
     spendFires (strLower "hello world") none = false) ∧
    parse_segment_prompt "hello world" exPop none =
      some (exPop, [sentinelCondition]) :=
  ⟨⟨by decide, by decide, by decide, by decide, by decide, by decide, by decide,
    by decide, by decide⟩,
   sentinel_when_no_matcher_fires "hello world" exPop none (by decide) (by decide)
     (by decide) (by decide) (by decide) (by decide) (by decide) (by decide)
     (by decide)⟩

/-- C8 (evaluating the code at the failing input): the tier filter of
"gold frequent" empties the population before the frequency matcher; the
frequency keyword is present, pandas' 75th percentile of the empty series
is NaN, and `int(NaN)` in the condition string raises `ValueError`
(modelled as `none`) instead of propagating the empty set. -/
theorem freq_empty_population_raises :
    parse_segment_prompt "gold frequent" silverPop none = none := by
  decide

/-- C9 counterexample: a request containing "young" makes the age matcher
materialise the derived `age` column, so the returned table's schema is NOT
the input schema (the input has no "age" column, the output does). -/
theorem age_adds_column_cex :
    (parse_segment_prompt "young" exPop none).map (fun r => r.1.cols) =
        some (baseCols ++ ["age"]) ∧
      baseCols.contains "age" = false := by
  decide

/-- C9 amended: surviving rows always keep their input order (they form a
sublist of the input rows), and the returned schema equals the input schema
except that, when the age matcher fires ("young"/"millennial"/"senior"),
the derived `age` column is appended (if not already present). -/
theorem parse_schema_order (p : String) (f : Frame) (b : Option (List Txn))
    (res : Frame × List String) (h : parse_segment_prompt p f b = some res) :
    List.Sublist res.1.rows f.rows ∧
      res.1.cols = (if youngFires (strLower p) || seniorFires (strLower p)
        then addAgeCol f.cols else f.cols) :=
  parse_shape p f b res h

theorem parse_schema_order_witness :
    parse_segment_prompt "young" exPop none =
        some (⟨baseCols ++ ["age"], [exCust4]⟩, ["Age: 25-40"]) ∧
      (List.Sublist (⟨baseCols ++ ["age"], [exCust4]⟩ : Frame).rows exPop.rows ∧
        (⟨baseCols ++ ["age"], [exCust4]⟩ : Frame).cols =
          (if youngFires (strLower "young") || seniorFires (strLower "young")
            then addAgeCol exPop.cols else exPop.cols)) :=
  ⟨by decide,
   parse_schema_order "young" exPop none
     (⟨baseCols ++ ["age"], [exCust4]⟩, ["Age: 25-40"]) (by decide)⟩

/-- C10: the country matcher's trigger is plain substring containment on
the whole lowered request text: every request containing the two-character
sequence "in" anywhere (for example only inside "inactive") activates the
country scan, even when none of the standalone words "from", "in",
"country" occur in the request. -/
theorem country_trigger_substring (pl : String) (f : Frame)
    (h1 : strContains pl "in" = true)
    (h2 : (wordsOf pl).contains "from" = false)
    (h3 : (wordsOf pl).contains "in" = false)
    (h4 : (wordsOf pl).contains "country" = false) :
    countryStage pl f = countryScan pl f := by
  unfold countryStage countryTrigger
  rw [h1]
  simp

theorem country_trigger_substring_witness :
    strContains "show inactive customers" "in" = true ∧
      (wordsOf "show inactive customers").contains "from" = false ∧
      (wordsOf "show inactive customers").contains "in" = false ∧
      (wordsOf "show inactive customers").contains "country" = false ∧
      countryStage "show inactive customers" exPop =
        countryScan "show inactive customers" exPop :=
  ⟨by decide, by decide, by decide, by decide,
   country_trigger_substring "show inactive customers" exPop (by decide)
     (by decide) (by decide) (by decide)⟩
